import Mathlib

/-
Verification development for a retrieval-augmented tech-news question-answering
tool.  The embedding below follows the Python sources:

  vector.py   : class VectorStore       (chromadb-backed document store)
  web.py      : class TechNewsReteiver  (RSS / JSON-API scrapers)
  pipeline.py : class RAGPipeline       (prompt construction and LLM calls)

External libraries (chromadb, sentence-transformers, feedparser, BeautifulSoup,
requests, hashlib, openai) are modelled by explicit parameters or by small
records capturing only the contract the code relies on; everything written in
the repository itself is translated directly.
-/

namespace TechRag

/-
`datetime` values are modelled as integers (seconds since the epoch): the code
only compares them, subtracts fixed offsets from them, and renders them with
`isoformat`, which we abstract as an injective rendering.
-/
abbrev Timestamp := Int

def Timestamp.isoformat (t : Timestamp) : String := toString t

/- Python `timedelta(days = n)` in seconds. -/
def timedeltaDays (n : Int) : Int := n * 86400

/-
Python string helpers, implemented over the character list so that every
operation reduces inside the kernel.  They are direct translations of the
Python constructs used by the sources.
-/

/- The characters matched by the regex class backslash-s on ASCII text. -/
def isPySpace (c : Char) : Bool :=
  c = ' ' || c = '\t' || c = '\n' || c = '\r' || c = '\x0b' || c = '\x0c'

/-
One pass of `re.sub(r"\s+", " ", text)`: every maximal run of whitespace
characters becomes a single space.  The boolean records whether the previous
character belonged to a whitespace run.
-/
def collapseWsAux : List Char → Bool → List Char
  | [], _ => []
  | c :: rest, prevSpace =>
    if isPySpace c then
      if prevSpace then collapseWsAux rest true
      else ' ' :: collapseWsAux rest true
    else c :: collapseWsAux rest false

/- Python `str.strip()` (whitespace at both ends removed). -/
def pyStrip (s : String) : String :=
  String.mk (((s.data.dropWhile isPySpace).reverse.dropWhile isPySpace).reverse)

/- `re.sub(r"\s+", " ", text).strip()` as used in `_clean_html`. -/
def pyCollapseStrip (s : String) : String :=
  pyStrip (String.mk (collapseWsAux s.data false))

/- Python slicing `s[:n]`. -/
def pyTake (n : Nat) (s : String) : String := String.mk (s.data.take n)

/- Python `s.split(".")`: splits at every dot, never returns an empty list. -/
def splitDotAux : List Char → List Char → List (List Char)
  | [], acc => [acc.reverse]
  | c :: rest, acc =>
    if c = '.' then acc.reverse :: splitDotAux rest []
    else splitDotAux rest (c :: acc)

def pySplitDot (s : String) : List String :=
  (splitDotAux s.data []).map String.mk

/- Python `x or d` for an optional string: `None` and `""` are falsy. -/
def pyOr (v : Option String) (d : String) : String :=
  match v with
  | none => d
  | some s => if s = "" then d else s

/- Python truthiness of an optional string. -/
def pyTruthy (v : Option String) : Bool :=
  match v with
  | none => false
  | some s => s ≠ ""

/-
The document record produced by the scrapers (`@dataclass Techupdate` in
web.py); `add_documents` consumes these records.
-/
structure Techupdate where
  title : String
  content : String
  url : String
  source : String
  timestamp : Timestamp
  summary : String
deriving Repr, DecidableEq

/-
vector.py — class VectorStore.

The chromadb collection is modelled as the list of its indexed entries, in
insertion order.  Each entry holds the stored document text, its metadata
record (the dictionary built in `add_documents`) and its identifier.
-/

structure DocMeta where
  title : String
  url : String
  source : String
  timestamp : String
  summary : String
deriving Repr, DecidableEq

structure IndexedEntry where
  id : String
  document : String
  metadata : DocMeta
deriving Repr, DecidableEq

structure Collection where
  entries : List IndexedEntry
deriving Repr, DecidableEq

/- `collection.count()`. -/
def Collection.count (c : Collection) : Nat := c.entries.length

/-
`_create_doc_id(self, url, timestamp)` from vector.py.  `hashlib.md5` is an
external, fixed, deterministic function of its input bytes; it is passed as
the parameter `md5HexDigest`.  The `self` argument is kept to show that the
method reads nothing from the store state.
-/
def _create_doc_id (md5HexDigest : String → String) (_self : Collection)
    (url : String) (timestamp : Timestamp) : String :=
  let unique_string := url ++ "_" ++ timestamp.isoformat
  md5HexDigest unique_string

/-
`_document_exists(self, doc_id)`: `collection.get(ids = [doc_id])` returns the
entries carrying that identifier, and the method tests whether any came back.
-/
def _document_exists (c : Collection) (doc_id : String) : Bool :=
  decide (0 < ((c.entries.filter (fun e => e.id = doc_id)).length))

/-
Exceptions that escape a Python call.  `add_documents` can only die with an
`AttributeError` (see below).
-/
inductive PyError
  | attributeError (msg : String)
deriving Repr, DecidableEq

/-
`add_documents(self, tech_updates)` from vector.py, translated faithfully.

The result pairs the collection state with the number of `collection.add`
calls issued (chromadb performs the embedding inside `add`, so zero calls also
means no embedding work).  An `.error` result models an exception propagating
to the caller with the store state unchanged.

The method first returns early on an empty list.  On a non-empty list the
loop body evaluates `doc_text` and then looks up `self.create_doc_id` — but
the class defines `_create_doc_id`, not `create_doc_id`, so the attribute
lookup raises `AttributeError` on the very first iteration, outside any
`try` block: nothing is ever appended and `collection.add` is never reached.
-/
def add_documents (c : Collection) : List Techupdate → Except PyError (Collection × Nat)
  | [] => .ok (c, 0)
  | update :: _ =>
    let _doc_text := update.title ++ "\n\n" ++ update.content ++ "\n\nSource:" ++ update.source
    .error (.attributeError "VectorStore object has no attribute create_doc_id")

/-
`collection.add(documents, metadatas, ids)` of the external chromadb client:
it refuses identifiers that are already present or duplicated within the
batch, and otherwise appends the new entries in order.
-/
def Collection.add (c : Collection) (documents : List String)
    (metadatas : List DocMeta) (ids : List String) : Except String Collection :=
  if ids.Nodup ∧ ids.all (fun i => ¬ (c.entries.any (fun e => e.id = i))) then
    .ok ⟨c.entries ++ (ids.zip (documents.zip metadatas)).map
      (fun p => ⟨p.1, p.2.1, p.2.2⟩)⟩
  else
    .error "DuplicateIDError"

/- The metadata dictionary built for one update in `add_documents`. -/
def updateMeta (update : Techupdate) : DocMeta :=
  { title := update.title
    url := update.url
    source := update.source
    timestamp := update.timestamp.isoformat
    summary := update.summary }

/-
`add_documents` as evidently intended (the loop calling `_create_doc_id`
instead of the undefined `create_doc_id`); kept for reference, it shows the
deduplicating behaviour the specification describes.  The failing
`collection.add` branch is caught and logged, so this version never raises.
-/
def add_documents_fixed (md5 : String → String) (c : Collection)
    (tech_updates : List Techupdate) : Collection × Nat :=
  let batch := tech_updates.foldl
    (fun (acc : List String × List DocMeta × List String) (update : Techupdate) =>
      let doc_text := update.title ++ "\n\n" ++ update.content ++ "\n\nSource:" ++ update.source
      let doc_id := _create_doc_id md5 c update.url update.timestamp
      if _document_exists c doc_id then acc
      else (acc.1 ++ [doc_text], acc.2.1 ++ [updateMeta update], acc.2.2 ++ [doc_id]))
    ([], [], [])
  if batch.1 = [] then (c, 0)
  else
    match c.add batch.1 batch.2.1 batch.2.2 with
    | .ok c2 => (c2, 1)
    | .error _ => (c, 1)

end TechRag

namespace TechRag

/- Concrete inputs used by the failing-input evaluations below. -/

def docA : Techupdate :=
  { title := "Post A"
    content := "body A"
    url := "https://example.org/a"
    source := "hackernews"
    timestamp := 100
    summary := "summary A" }

def docB : Techupdate :=
  { title := "Post B"
    content := "body B"
    url := "https://example.org/b"
    source := "techcrunch"
    timestamp := 200
    summary := "summary B" }

def entryB : IndexedEntry :=
  { id := "id-b", document := "Post B doc", metadata := updateMeta docB }

/--
Claim C1.  The claim reads `add_documents` of an already-present document as a
dedup no-op that leaves the count unchanged.  In the code the insert path is
unreachable: the loop body of `add_documents` looks up the undefined attribute
`create_doc_id` (the method is named `_create_doc_id`), so every non-empty
insert raises `AttributeError` before touching the index — evaluated here on
the concrete document `docA` against an empty store.  No document is ever
inserted, so the dedup behaviour the claim describes never occurs.
-/
theorem add_documents_raises_on_insert_c1 :
    add_documents ⟨[]⟩ [docA] =
      .error (.attributeError "VectorStore object has no attribute create_doc_id") := rfl

/--
Claim C2.  The claim states that no Store operation ever raises to its caller.
`add_documents` contradicts it: on any non-empty input the undefined-attribute
lookup `self.create_doc_id` raises an uncaught `AttributeError` — evaluated
here on the concrete document `docB` against a non-empty store.
-/
theorem add_documents_raises_c2 :
    add_documents ⟨[entryB]⟩ [docB] =
      .error (.attributeError "VectorStore object has no attribute create_doc_id") := rfl

/--
Claim C9.  The derived document identifier is a pure deterministic function of
`(url, timestamp)`: with the external `hashlib.md5` digest fixed (it is a pure
function of its input), two calls of `_create_doc_id` on equal urls and equal
timestamps return the same identifier, whatever the store state of either run.
-/
theorem create_doc_id_deterministic (md5 : String → String)
    (s₁ s₂ : Collection) (u₁ u₂ : String) (t₁ t₂ : Timestamp)
    (hu : u₁ = u₂) (ht : t₁ = t₂) :
    _create_doc_id md5 s₁ u₁ t₁ = _create_doc_id md5 s₂ u₂ t₂ := by
  subst hu
  subst ht
  rfl

def wMd5 : String → String := fun s => "h:" ++ s

/-- Witness for C9 at concrete inputs: two runs with different store states. -/
theorem create_doc_id_deterministic_witness :
    _create_doc_id wMd5 ⟨[]⟩ "https://example.org/a" 100 =
      _create_doc_id wMd5 ⟨[entryB]⟩ "https://example.org/a" 100 :=
  create_doc_id_deterministic wMd5 ⟨[]⟩ ⟨[entryB]⟩
    "https://example.org/a" "https://example.org/a" 100 100 rfl rfl

/--
Claim C10.  `add_documents` on the empty list returns immediately through the
`if not tech_updates` guard: the store is unchanged, no `collection.add` call
(and hence no embedding) is issued, no identifier is computed — the early
return precedes the loop, so even the buggy attribute lookup is not reached —
and no exception is raised.
-/
theorem add_documents_empty_noop (c : Collection) :
    add_documents c [] = .ok (c, 0) := rfl

end TechRag

namespace TechRag

/-
web.py — class TechNewsReteiver.

The external world seen by the scraper: `feedParse` abstracts
`feedparser.parse` (an `.error` models an exception inside the call),
`getText` abstracts `BeautifulSoup(...).get_text()`, `httpGet` abstracts a
`requests` GET returning parsed JSON, `fmtYMD` abstracts
`strftime("%Y-%m-%d")`, and `now` is `datetime.now()` for this fetch.
-/

structure FeedEntry where
  title : String
  link : String
  summary : Option String
  description : Option String
deriving Repr, DecidableEq

structure Feed where
  entries : List FeedEntry
deriving Repr, DecidableEq

/- The body text a feed entry carries: its summary field, else description. -/
def FeedEntry.body (e : FeedEntry) : String :=
  e.summary.getD (e.description.getD "")

structure GithubRepo where
  full_name : String
  html_url : String
  stargazers_count : Nat
  language : Option String
  description : Option String
deriving Repr, DecidableEq

structure HttpResponse where
  status_code : Nat
  items : List GithubRepo
deriving Repr, DecidableEq

structure GithubParams where
  q : String
  sort : String
  order : String
  per_page : Nat
deriving Repr, DecidableEq

structure World where
  getText : String → String
  feedParse : String → Except String Feed
  httpGet : String → GithubParams → HttpResponse
  fmtYMD : Timestamp → String
  now : Timestamp

/- `_clean_html(self, html_content)` from web.py. -/
def _clean_html (getText : String → String) (html_content : String) : String :=
  if html_content = "" then ""
  else
    let text := getText html_content
    let text := pyCollapseStrip text
    if 500 < text.length then pyTake 500 text ++ "..." else text

/- `_create_summary(self, content)` from web.py. -/
def _create_summary (content : String) : String :=
  if content = "" then "No content available"
  else
    let sentences := pySplitDot content
    if 20 < (sentences.headD "").length then sentences.headD "" ++ "."
    else if 100 < content.length then pyTake 100 content ++ "..." else content

/- `_fetch_from_rss(self, source, url)`: an exception anywhere in the body is
caught, logged and turned into an empty list. -/
def _fetch_from_rss (w : World) (source url : String) : List Techupdate :=
  match w.feedParse url with
  | .error _ => []
  | .ok feed =>
    (feed.entries.take 15).map (fun entry =>
      let content := _clean_html w.getText entry.body
      let summary := _create_summary content
      { title := entry.title
        content := content
        url := entry.link
        source := source
        timestamp := w.now
        summary := summary })

/- `_fetch_github_trending(self, url)` from web.py.  Note that the bound of 10
is only the `per_page` request parameter; the loop itself iterates everything
in `data["items"]`. -/
def _fetch_github_trending (w : World) (url : String) : List Techupdate :=
  let yesterday := w.fmtYMD (w.now - timedeltaDays 1)
  let params : GithubParams :=
    { q := "created:>" ++ yesterday, sort := "stars", order := "desc", per_page := 10 }
  let response := w.httpGet url params
  if response.status_code ≠ 200 then []
  else
    response.items.map (fun repo =>
      { title := " " ++ repo.full_name
        content := toString repo.stargazers_count ++ " stars | " ++
          pyOr repo.language "N/A" ++ " | " ++ pyOr repo.description "No description"
        url := repo.html_url
        source := "github_trending"
        timestamp := w.now
        summary := "Trending " ++ pyOr repo.language "repository" ++ ": " ++
          (if pyTruthy repo.description then pyTake 100 (repo.description.getD "")
           else "No description") ++ "..." })

/- The `self.sources` configuration dictionary, in insertion order. -/
structure SourceConfig where
  url : String
  type : String
deriving Repr, DecidableEq

def sources : List (String × SourceConfig) :=
  [("hackernews", { url := "https://hnrss.org/frontpage?count=20", type := "rss" }),
   ("techcrunch", { url := "https://techcrunch.com/feed/", type := "rss" }),
   ("github_trending", { url := "https://api.github.com/search/repositories", type := "api" }),
   ("reddit_programming", { url := "https://www.reddit.com/r/programming/hot.json?limit=20", type := "api" })]

def sourceNames : List String := sources.map (fun p => p.1)

inductive FetchError
  | valueError (msg : String)
deriving Repr, DecidableEq

/-
`fetch_from_source(self, source)` from web.py.  The unknown-source
`ValueError` is raised before the `try` block and propagates.  For the
`"api"` sources the code evaluates `self._fetch_from_api`, an attribute that
does not exist on the class (the defined methods are `_fetch_github_trending`
and `_fetch_reddit_programming`, which are never called); the resulting
`AttributeError` is caught by the handler around the dispatch, logged, and
absorbed into an empty result.
-/
def fetch_from_source (w : World) (source : String) : Except FetchError (List Techupdate) :=
  match sources.lookup source with
  | none => .error (.valueError ("unknown source:" ++ source))
  | some source_config =>
    if source_config.type = "rss" then
      .ok (_fetch_from_rss w source source_config.url)
    else if source_config.type = "api" then
      .ok []
    else
      .ok []

/--
Claim C6.  Fetching a source name that is not configured raises the
configuration error (`ValueError`) to the caller — it is not absorbed into an
empty result the way transient fetch errors are.
-/
theorem unknown_source_value_error (w : World) (s : String)
    (h : sources.lookup s = none) :
    fetch_from_source w s = .error (.valueError ("unknown source:" ++ s)) := by
  unfold fetch_from_source
  rw [h]

def wSilentWorld : World :=
  { getText := fun s => s
    feedParse := fun _ => .ok ⟨[]⟩
    httpGet := fun _ _ => ⟨200, []⟩
    fmtYMD := fun t => toString t
    now := 0 }

/-- Witness for C6 at the concrete unconfigured name. -/
theorem unknown_source_value_error_witness :
    fetch_from_source wSilentWorld "not-a-real-source" =
      .error (.valueError ("unknown source:" ++ "not-a-real-source")) :=
  unknown_source_value_error wSilentWorld "not-a-real-source" (by decide)

/--
Claim C3.  The claim says `fetch_from_source("github_trending")` queries the
search API and returns up to 10 composed documents.  In the code the `"api"`
branch dispatches to `self._fetch_from_api`, a method that does not exist;
the `AttributeError` is caught and absorbed, so the call returns the empty
list for every state of the external world — `_fetch_github_trending`, which
does implement the described behaviour, is dead code.
-/
theorem github_trending_fetch_returns_empty (w : World) :
    fetch_from_source w "github_trending" = .ok [] := rfl

end TechRag

namespace TechRag

/- The `except` handler around one iteration of the `fetch_all_sources` loop:
a raising fetch contributes nothing. -/
def fetchAbsorbed (w : World) (s : String) : List Techupdate :=
  match fetch_from_source w s with
  | .ok updates => updates
  | .error _ => []

def fetchOk (w : World) (s : String) : Bool :=
  match fetch_from_source w s with
  | .ok _ => true
  | .error _ => false

/-
One iteration of the `for source in self.sources.keys()` loop in
`fetch_all_sources`: fetch, extend the accumulator, then `time.sleep(0.5)`
(counted in the second component); an exception from the fetch is caught and
logged, skipping both the extend and the sleep.
-/
def fetchAllStep (w : World) (acc : List Techupdate × Nat) (source : String) :
    List Techupdate × Nat :=
  match fetch_from_source w source with
  | .ok updates => (acc.1 ++ updates, acc.2 + 1)
  | .error _ => acc

/- Sort order of `all_updates.sort(key=lambda x: x.timestamp, reverse=True)`:
newest first.  Python sorts are stable; order among equal timestamps is not
relied on anywhere, so a stable-agnostic sort models the call. -/
def tsDesc (a b : Techupdate) : Prop := b.timestamp ≤ a.timestamp

instance : DecidableRel tsDesc :=
  fun a b => inferInstanceAs (Decidable (b.timestamp ≤ a.timestamp))

instance : IsTotal Techupdate tsDesc := ⟨fun a b => le_total b.timestamp a.timestamp⟩

instance : IsTrans Techupdate tsDesc := ⟨fun _ _ _ hab hbc => le_trans hbc hab⟩

/- `fetch_all_sources(self)` from web.py; the second component counts the
`time.sleep(0.5)` inter-source delays performed. -/
def fetch_all_sources (w : World) : List Techupdate × Nat :=
  let res := sourceNames.foldl (fetchAllStep w) ([], 0)
  (List.insertionSort tsDesc res.1, res.2)

theorem fetchAll_foldl (w : World) (l : List String) (acc : List Techupdate) (n : Nat) :
    l.foldl (fetchAllStep w) (acc, n) =
      (acc ++ l.flatMap (fetchAbsorbed w), n + l.countP (fetchOk w)) := by
  induction l generalizing acc n with
  | nil => simp
  | cons s rest ih =>
    simp only [List.foldl_cons, List.flatMap_cons, List.countP_cons]
    rcases h : fetch_from_source w s with e | us
    · simp only [fetchAllStep, h, ih, fetchOk, fetchAbsorbed]
      simp
    · simp only [fetchAllStep, h, ih, fetchOk, fetchAbsorbed]
      refine Prod.ext ?_ ?_
      · simp
      · simp
        omega

theorem fetchOk_of_mem (w : World) (s : String) (hs : s ∈ sourceNames) :
    fetchOk w s = true := by
  have : s = "hackernews" ∨ s = "techcrunch" ∨ s = "github_trending" ∨
      s = "reddit_programming" := by
    simpa [sourceNames, sources] using hs
  rcases this with rfl | rfl | rfl | rfl <;> rfl

/--
Claim C7.  `fetch_all_sources` visits every configured source in order with
one inter-source delay per successful fetch, concatenates the per-source
results, and returns them sorted by timestamp descending; a source whose
fetch fails contributes only its own empty result, so documents fetched from
the other sources are always in the output: the result is a permutation of
the concatenation of the absorbed per-source fetches, it is sorted newest
first, every document any source yields is in it, and the number of delays
equals the number of configured sources.
-/
theorem fetch_all_sources_spec (w : World) :
    (fetch_all_sources w).1.Perm (sourceNames.flatMap (fetchAbsorbed w))
    ∧ List.Sorted tsDesc (fetch_all_sources w).1
    ∧ (∀ s ∈ sourceNames, ∀ u ∈ fetchAbsorbed w s, u ∈ (fetch_all_sources w).1)
    ∧ (fetch_all_sources w).2 = sourceNames.length := by
  have hfold := fetchAll_foldl w sourceNames [] 0
  have h1 : (fetch_all_sources w).1 =
      List.insertionSort tsDesc (sourceNames.flatMap (fetchAbsorbed w)) := by
    simp [fetch_all_sources, hfold]
  have h2 : (fetch_all_sources w).2 = sourceNames.countP (fetchOk w) := by
    simp [fetch_all_sources, hfold]
  have hcount : sourceNames.countP (fetchOk w) = sourceNames.length :=
    List.countP_eq_length.mpr (fun s hs => fetchOk_of_mem w s hs)
  refine ⟨?_, ?_, ?_, ?_⟩
  · rw [h1]
    exact List.perm_insertionSort tsDesc _
  · rw [h1]
    exact List.sorted_insertionSort tsDesc _
  · intro s hs u hu
    rw [h1, (List.perm_insertionSort tsDesc _).mem_iff]
    exact List.mem_flatMap.mpr ⟨s, hs, hu⟩
  · rw [h2, hcount]

def wFeedEntry : FeedEntry :=
  { title := "T"
    link := "L"
    summary := some "Hello world from the witness feed."
    description := none }

/- A world in which every source except hackernews raises inside its fetch. -/
def wIsolationWorld : World :=
  { getText := fun s => s
    feedParse := fun url =>
      if url = "https://hnrss.org/frontpage?count=20" then .ok ⟨[wFeedEntry]⟩
      else .error "connection reset"
    httpGet := fun _ _ => ⟨500, []⟩
    fmtYMD := fun t => toString t
    now := 7 }

def wFeedUpdate : Techupdate :=
  { title := "T"
    content := "Hello world from the witness feed."
    url := "L"
    source := "hackernews"
    timestamp := 7
    summary := "Hello world from the witness feed." }

/-- Witness for C7: with every other source failing, the hackernews document
is still in the aggregated result. -/
theorem fetch_all_sources_spec_witness :
    wFeedUpdate ∈ (fetch_all_sources wIsolationWorld).1 :=
  (fetch_all_sources_spec wIsolationWorld).2.2.1 "hackernews" (by decide)
    wFeedUpdate (by decide)

end TechRag

namespace TechRag

/-
Claim C4 compares `_fetch_from_rss` with the specified per-entry pipeline.
`specContentStated` and `specSummaryStated` are written from the words of the
claim ("truncated to 500 characters", "otherwise the first 100 characters of
the content"); `specContentAmended` and `specSummaryAmended` are written from
the amended words (an ellipsis is appended past either bound, and empty
content yields the fixed no-content message).
-/

def specContentStated (getText : String → String) (body : String) : String :=
  pyTake 500 (pyCollapseStrip (getText body))

def specSummaryStated (content : String) : String :=
  let first := (pySplitDot content).headD ""
  if 20 < first.length then first ++ "." else pyTake 100 content

def rssStatedOutput (w : World) (source url : String) : List Techupdate :=
  match w.feedParse url with
  | .error _ => []
  | .ok feed =>
    (feed.entries.take 15).map (fun entry =>
      let content := specContentStated w.getText entry.body
      { title := entry.title
        content := content
        url := entry.link
        source := source
        timestamp := w.now
        summary := specSummaryStated content })

/- The claim as stated: every feed fetch equals the stated pipeline. -/
def rssClaimStated : Prop :=
  ∀ (w : World) (source url : String),
    _fetch_from_rss w source url = rssStatedOutput w source url

def specContentAmended (getText : String → String) (body : String) : String :=
  if body = "" then ""
  else
    let t := pyCollapseStrip (getText body)
    if 500 < t.length then pyTake 500 t ++ "..." else t

def specSummaryAmended (content : String) : String :=
  if content = "" then "No content available"
  else
    let first := (pySplitDot content).headD ""
    if 20 < first.length then first ++ "."
    else if 100 < content.length then pyTake 100 content ++ "..."
    else content

def rssAmendedOutput (w : World) (source url : String) : List Techupdate :=
  match w.feedParse url with
  | .error _ => []
  | .ok feed =>
    (feed.entries.take 15).map (fun entry =>
      let content := specContentAmended w.getText entry.body
      { title := entry.title
        content := content
        url := entry.link
        source := source
        timestamp := w.now
        summary := specSummaryAmended content })

/- A feed exhibiting the three divergences from the stated pipeline: a body
cleaning to more than 500 characters, a body whose first dot-segment is short
while the content exceeds 100 characters, and an empty body. -/
def cRssWorld : World :=
  { getText := fun s => s
    feedParse := fun _ => .ok ⟨[
      { title := "A", link := "ua",
        summary := some (String.mk (List.replicate 600 'a')), description := none },
      { title := "B", link := "ub",
        summary := some ("short." ++ String.mk (List.replicate 120 'c')), description := none },
      { title := "C", link := "uc", summary := some "", description := none }]⟩
    httpGet := fun _ _ => ⟨200, []⟩
    fmtYMD := fun t => toString t
    now := 0 }

set_option maxRecDepth 100000 in
set_option maxHeartbeats 1000000 in
/--
Counterexample to claim C4 as stated, at the concrete feed of `cRssWorld`:
the first entry's content is the first 500 cleaned characters with "..."
appended (503 characters, not a truncation to 500); the second entry's
summary is the first 100 characters of the content with "..." appended (not
the first 100 characters); the third entry's empty content gets the fixed
message "No content available" (not its first 100 characters).
-/
theorem rss_claim_stated_counterexample :
    ((_fetch_from_rss cRssWorld "hackernews" "u")[0]? ≠
        (rssStatedOutput cRssWorld "hackernews" "u")[0]?)
    ∧ ((_fetch_from_rss cRssWorld "hackernews" "u")[1]? ≠
        (rssStatedOutput cRssWorld "hackernews" "u")[1]?)
    ∧ ((_fetch_from_rss cRssWorld "hackernews" "u")[2]? ≠
        (rssStatedOutput cRssWorld "hackernews" "u")[2]?)
    ∧ ¬ rssClaimStated := by
  refine ⟨by decide, by decide, by decide, fun h => ?_⟩
  exact (by decide :
      (_fetch_from_rss cRssWorld "hackernews" "u")[0]? ≠
        (rssStatedOutput cRssWorld "hackernews" "u")[0]?)
    (by rw [h cRssWorld "hackernews" "u"])

/--
Claim C4 as amended.  For every syndication-feed source, fetch maps exactly
the first 15 feed entries (so at most 15 results); each entry's content is the
body with markup stripped and whitespace collapsed, truncated to the first 500
characters with "..." appended when longer (empty body gives empty content);
its summary is "No content available" for empty content, else the text before
the first period with a period appended when that text exceeds 20 characters,
else the content when at most 100 characters, else the first 100 characters
with "..." appended; and its timestamp is the fetch time.
-/
theorem rss_fetch_amended (w : World) (source url : String) :
    _fetch_from_rss w source url = rssAmendedOutput w source url
    ∧ (_fetch_from_rss w source url).length ≤ 15
    ∧ ∀ u ∈ _fetch_from_rss w source url, u.timestamp = w.now := by
  refine ⟨rfl, ?_, ?_⟩
  · cases h : w.feedParse url with
    | error e => simp [_fetch_from_rss, h]
    | ok feed =>
      simp only [_fetch_from_rss, h, List.length_map]
      exact List.length_take_le 15 feed.entries
  · intro u hu
    cases h : w.feedParse url with
    | error e => simp [_fetch_from_rss, h] at hu
    | ok feed =>
      simp only [_fetch_from_rss, h, List.mem_map] at hu
      obtain ⟨entry, -, rfl⟩ := hu
      rfl

def wRssU0 : Techupdate :=
  { title := "A"
    content := String.mk (List.replicate 500 'a') ++ "..."
    url := "ua"
    source := "hackernews"
    timestamp := 0
    summary := String.mk (List.replicate 500 'a') ++ "." }

set_option maxRecDepth 100000 in
set_option maxHeartbeats 1000000 in
/-- Witness for the amended C4 at the concrete feed of `cRssWorld`. -/
theorem rss_fetch_amended_witness : wRssU0.timestamp = cRssWorld.now :=
  (rss_fetch_amended cRssWorld "hackernews" "u").2.2 wRssU0 (by decide)

end TechRag

namespace TechRag

/-
pipeline.py — class RAGPipeline.

The hosted chat-completion endpoint is external: `LlmClient.complete`
receives the request the code builds and returns either the generated text
(`choices[0].message.content`) or an error (a raised exception).  The `:.3f`
float rendering of the relevance score is abstracted as `fmtScore`.
-/

structure RetrievedDoc where
  content : String
  title : String
  source : String
  url : String
  timestamp : String
  summary : String
  similarity_score : ℚ
deriving Repr, DecidableEq

structure ChatMessage where
  role : String
  content : String
deriving Repr, DecidableEq

structure ChatRequest where
  model : String
  messages : List ChatMessage
  temperature : ℚ
  max_tokens : Nat
deriving Repr, DecidableEq

structure LlmClient where
  complete : ChatRequest → Except String String

def system_prompt : String :=
  "You are an expert AI assistant specialized in providing accurate, up-to-date information about technology developments, programming, software engineering, and tech industry news.\n\nYour role is to:\n1. Analyze the provided context from recent tech sources\n2. Give comprehensive, accurate answers based on the retrieved information\n3. Cite specific sources when providing information\n4. Highlight the most recent and relevant developments\n5. Explain technical concepts clearly\n6. Provide actionable insights when appropriate\n\nGuidelines:\n- Always ground your responses in the provided context\n- When citing sources, mention the source name and recency\n- If information is incomplete, acknowledge limitations\n- For technical topics, provide both overview and details\n- Stay focused on technology, programming, and industry developments\n- Be concise but comprehensive"

/- `_prepare_context(self, retrieved_docs)`: one numbered section per document. -/
def _prepare_context (fmtScore : ℚ → String) (retrieved_docs : List RetrievedDoc) : String :=
  String.intercalate "\n" (retrieved_docs.enum.map (fun p =>
    "Document " ++ toString (p.1 + 1) ++ ":\nTitle: " ++ p.2.title ++
    "\nSource: " ++ p.2.source ++ "\nContent: " ++ pyTake 800 p.2.content ++
    "...\nRelevance Score: " ++ fmtScore p.2.similarity_score ++ "\n---"))

/- `_create_user_prompt(self, query, context)`. -/
def _create_user_prompt (query context : String) : String :=
  "\nBased on the following recent tech updates and information, please answer the user\x27s question:\n\nUSER QUESTION: " ++
  query ++ "\n\nRECENT TECH CONTEXT:\n" ++ context ++
  "\n\nPlease provide a comprehensive answer based on the provided context. Include:\n1. Direct answer to the question\n2. Relevant details from the sources\n3. Recent developments mentioned in the context\n4. Technical insights and implications\n5. Actionable recommendations if applicable\n\nFocus on information from the provided context and cite sources appropriately.\n"

/- Python `str.title()` on ASCII text: a letter is uppercased after a
non-letter and lowercased otherwise. -/
def pyTitleAux : List Char → Bool → List Char
  | [], _ => []
  | c :: rest, prevAlpha =>
    (if c.isAlpha then (if prevAlpha then c.toLower else c.toUpper) else c) ::
      pyTitleAux rest c.isAlpha

def pyTitle (s : String) : String := String.mk (pyTitleAux s.data false)

/- The `unique_sources` dictionary of `_format_response_with_sources`:
insertion-ordered grouping of (title, url) by source. -/
def updateAssoc : List (String × List (String × String)) → String → (String × String) →
    List (String × List (String × String))
  | [], source, article => [(source, [article])]
  | (k, arts) :: rest, source, article =>
    if k = source then (k, arts ++ [article]) :: rest
    else (k, arts) :: updateAssoc rest source article

def groupBySource (retrieved_docs : List RetrievedDoc) :
    List (String × List (String × String)) :=
  retrieved_docs.foldl (fun acc doc => updateAssoc acc doc.source (doc.title, doc.url)) []

def renderArticleLink (article : String × String) : String :=
  if article.2 ≠ "" then "[" ++ pyTake 50 article.1 ++ "...](" ++ article.2 ++ ")"
  else pyTake 50 article.1 ++ "..."

/- `_format_response_with_sources(self, response, retrieved_docs)`. -/
def _format_response_with_sources (response : String)
    (retrieved_docs : List RetrievedDoc) : String :=
  let sources_section := (groupBySource retrieved_docs).foldl
    (fun acc p => acc ++ "- **" ++ pyTitle p.1 ++ "**: " ++
      String.intercalate ", " ((p.2.take 3).map renderArticleLink) ++ "\n")
    "\n\n📚 **Sources:**\n"
  response ++ sources_section

/-
`generate_response(self, query, retrieved_docs)`.  The second component of
the result counts the calls made to the external chat-completion endpoint;
a failing call is caught and converted into the inline error string.
-/
def generate_response (client : LlmClient) (model_name : String)
    (fmtScore : ℚ → String) (query : String)
    (retrieved_docs : List RetrievedDoc) : String × Nat :=
  if retrieved_docs = [] then
    ("I don\x27t have any recent tech updates to answer your question. Please refresh the tech updates first.", 0)
  else
    let context := _prepare_context fmtScore retrieved_docs
    let user_prompt := _create_user_prompt query context
    match client.complete
        { model := model_name
          messages := [⟨"system", system_prompt⟩, ⟨"user", user_prompt⟩]
          temperature := 7 / 10
          max_tokens := 1000 } with
    | .ok generated_response =>
      (_format_response_with_sources generated_response retrieved_docs, 1)
    | .error e =>
      ("Error generating response: " ++ e ++ ". Please check your OpenAI API key and try again.", 1)

/- `generate_conversational_response(self, query, retrieved_docs)`. -/
def generate_conversational_response (client : LlmClient) (model_name : String)
    (fmtScore : ℚ → String) (query : String)
    (retrieved_docs : List RetrievedDoc) : String × Nat :=
  if retrieved_docs = [] then
    ("I couldn\x27t find any recent updates to answer your question. Try refreshing the tech news.", 0)
  else
    let context := _prepare_context fmtScore retrieved_docs
    let prompt := "Here are some recent updates:\n" ++ context ++ "\n\nUser question: " ++
      query ++ "\n\nPlease answer the question in a natural and conversational tone, keeping it simple and easy to understand."
    match client.complete
        { model := model_name
          messages := [⟨"system", "You\x27re a helpful tech assistant who answers in a friendly tone."⟩,
                       ⟨"user", prompt⟩]
          temperature := 7 / 10
          max_tokens := 800 } with
    | .ok r => (pyStrip r, 1)
    | .error e => ("Error: " ++ e, 1)

/--
Claim C5.  For every query, in both response styles, the Responder called
with an empty retrieved-document list returns its fixed no-context message
and performs zero calls to the external text-generation endpoint.
-/
theorem empty_context_short_circuit (client : LlmClient) (model_name : String)
    (fmtScore : ℚ → String) (query : String) :
    generate_response client model_name fmtScore query [] =
      ("I don\x27t have any recent tech updates to answer your question. Please refresh the tech updates first.", 0)
    ∧ generate_conversational_response client model_name fmtScore query [] =
      ("I couldn\x27t find any recent updates to answer your question. Try refreshing the tech news.", 0) :=
  ⟨rfl, rfl⟩

end TechRag

namespace TechRag

/-
vector.py — `similarity_search`.

The external chromadb query (`collection.query(query_texts=[query],
n_results=k, include=[...])`) embeds the query and returns the `n_results`
nearest stored entries by ascending cosine distance, each paired with that
distance; `dist` abstracts the composition of the embedding model and the
distance metric.  The returned parallel `documents` / `metadatas` /
`distances` lists are aligned by the index, modelled as one list of pairs.
-/

def distAsc (a b : IndexedEntry × ℚ) : Prop := a.2 ≤ b.2

instance : DecidableRel distAsc :=
  fun a b => inferInstanceAs (Decidable (a.2 ≤ b.2))

instance : IsTotal (IndexedEntry × ℚ) distAsc := ⟨fun a b => le_total a.2 b.2⟩

instance : IsTrans (IndexedEntry × ℚ) distAsc := ⟨fun _ _ _ => le_trans⟩

def Collection.query (c : Collection) (dist : String → String → ℚ)
    (query_text : String) (n_results : Nat) : List (IndexedEntry × ℚ) :=
  (List.insertionSort distAsc
    (c.entries.map (fun e => (e, dist query_text e.document)))).take n_results

/- One element of the `formatted_results` list built in the loop; the
metadata defaults (`"No title"` etc.) never fire because every stored entry
carries the full metadata record `add_documents` builds. -/
structure QueryResult where
  content : String
  metadata : DocMeta
  similarity_score : ℚ
  title : String
  source : String
  url : String
  timestamp : String
  summary : String
deriving Repr, DecidableEq

def formatResult (e : IndexedEntry) (distance : ℚ) : QueryResult :=
  { content := e.document
    metadata := e.metadata
    similarity_score := 1 - distance
    title := e.metadata.title
    source := e.metadata.source
    url := e.metadata.url
    timestamp := e.metadata.timestamp
    summary := e.metadata.summary }

/-
`similarity_search(self, query, k)` from vector.py: the whole body sits in a
`try` block, so any exception from the external call (`chromaFailure`) is
caught, logged, and turned into the empty list; otherwise each returned row
is formatted with similarity score `1 - distance`.
-/
def similarity_search (c : Collection) (dist : String → String → ℚ)
    (chromaFailure : Option String) (query : String) (k : Nat) : List QueryResult :=
  match chromaFailure with
  | some _ => []
  | none => (Collection.query c dist query k).map (fun row => formatResult row.1 row.2)

def simDesc (a b : QueryResult) : Prop := b.similarity_score ≤ a.similarity_score

/--
Claim C8.  `similarity_search(query, k)` converts each index distance d to the
similarity score 1 - d and returns the results in descending similarity
order, with exactly `min k count` results (so exactly k when the index holds
at least k entries); a failing underlying call and an empty index both give
the empty list, never an error.
-/
theorem similarity_search_spec (c : Collection) (dist : String → String → ℚ)
    (q : String) (k : Nat) :
    (similarity_search c dist none q k).length = min k c.count
    ∧ List.Sorted simDesc (similarity_search c dist none q k)
    ∧ (∀ r ∈ similarity_search c dist none q k,
        ∃ e ∈ c.entries, r = formatResult e (dist q e.document)
          ∧ r.similarity_score = 1 - dist q e.document)
    ∧ (∀ msg, similarity_search c dist (some msg) q k = [])
    ∧ (c.entries = [] → similarity_search c dist none q k = []) := by
  refine ⟨?_, ?_, ?_, fun msg => rfl, fun h => ?_⟩
  · simp [similarity_search, Collection.query, Collection.count]
  · have hs : List.Sorted distAsc
        (List.insertionSort distAsc
          (c.entries.map (fun e => (e, dist q e.document)))) :=
      List.sorted_insertionSort distAsc _
    have ht : List.Sorted distAsc
        ((List.insertionSort distAsc
          (c.entries.map (fun e => (e, dist q e.document)))).take k) :=
      List.Pairwise.sublist (List.take_sublist k _) hs
    exact List.Pairwise.map _
      (fun a b (hab : a.2 ≤ b.2) =>
        show (1 : ℚ) - b.2 ≤ 1 - a.2 from sub_le_sub_left hab 1) ht
  · intro r hr
    obtain ⟨row, hrow, rfl⟩ := List.mem_map.1 hr
    have h1 : row ∈ List.insertionSort distAsc
        (c.entries.map (fun e => (e, dist q e.document))) :=
      List.Sublist.mem hrow (List.take_sublist k _)
    have h2 : row ∈ c.entries.map (fun e => (e, dist q e.document)) :=
      (List.perm_insertionSort distAsc _).mem_iff.1 h1
    obtain ⟨e, he, rfl⟩ := List.mem_map.1 h2
    exact ⟨e, he, rfl, rfl⟩
  · simp [similarity_search, Collection.query, h]

def wE1 : IndexedEntry :=
  { id := "i1", document := "x",
    metadata := { title := "t1", url := "u1", source := "s1", timestamp := "100", summary := "m1" } }

def wE2 : IndexedEntry :=
  { id := "i2", document := "yy",
    metadata := { title := "t2", url := "u2", source := "s2", timestamp := "200", summary := "m2" } }

def wE3 : IndexedEntry :=
  { id := "i3", document := "zzz",
    metadata := { title := "t3", url := "u3", source := "s3", timestamp := "300", summary := "m3" } }

def wSearchStore : Collection := ⟨[wE1, wE2, wE3]⟩

def wDist : String → String → ℚ := fun _ d => (d.data.length : ℚ)

def wR0 : QueryResult := formatResult wE1 (wDist "q" "x")

/-- Witness for C8: the first result of a k = 3 search over a three-entry
store, and the empty-store case. -/
theorem similarity_search_spec_witness :
    (∃ e ∈ wSearchStore.entries,
        wR0 = formatResult e (wDist "q" e.document)
          ∧ wR0.similarity_score = 1 - wDist "q" e.document)
    ∧ similarity_search ⟨[]⟩ wDist none "q" 3 = [] :=
  ⟨(similarity_search_spec wSearchStore wDist "q" 3).2.2.1 wR0 (by
      have h : similarity_search wSearchStore wDist none "q" 3 =
          wR0 :: [formatResult wE2 (wDist "q" "yy"),
                  formatResult wE3 (wDist "q" "zzz")] := rfl
      rw [h]
      exact List.mem_cons_self _ _),
   (similarity_search_spec ⟨[]⟩ wDist "q" 3).2.2.2.2 rfl⟩

end TechRag

namespace TechRag

theorem document_exists_iff (c : Collection) (i : String) :
    _document_exists c i = true ↔ ∃ e ∈ c.entries, e.id = i := by
  rw [_document_exists, decide_eq_true_eq, ← List.countP_eq_length_filter,
    List.countP_pos_iff]
  simp

/-
Supporting fact for the reading of C1 as the intent of the code: with the
attribute slip repaired (`add_documents_fixed`), inserting the same document
a second time is a no-op — the store state after the second insert equals the
state after the first.
-/
theorem add_documents_fixed_idempotent (md5 : String → String) (c : Collection)
    (d : Techupdate) :
    (add_documents_fixed md5 (add_documents_fixed md5 c [d]).1 [d]).1 =
      (add_documents_fixed md5 c [d]).1 := by
  by_cases h : _document_exists c (_create_doc_id md5 c d.url d.timestamp)
  · have h1 : add_documents_fixed md5 c [d] = (c, 0) := by
      simp [add_documents_fixed, h]
    rw [h1]
    simp [add_documents_fixed, h]
  · have hne : ¬ ∃ e ∈ c.entries, e.id = _create_doc_id md5 c d.url d.timestamp := by
      rw [← document_exists_iff]
      exact h
    have hadd : Collection.add c
        [d.title ++ "\n\n" ++ d.content ++ "\n\nSource:" ++ d.source]
        [updateMeta d] [_create_doc_id md5 c d.url d.timestamp] =
        .ok ⟨c.entries ++
          [⟨_create_doc_id md5 c d.url d.timestamp,
            d.title ++ "\n\n" ++ d.content ++ "\n\nSource:" ++ d.source,
            updateMeta d⟩]⟩ := by
      rw [Collection.add, if_pos]
      · rfl
      · constructor
        · exact List.nodup_singleton _
        · simp only [List.all_cons, List.all_nil, Bool.and_true, decide_eq_true_eq,
            List.any_eq_true, not_exists]
          intro e he
          exact hne ⟨e, he.1, he.2⟩
    have h1 : add_documents_fixed md5 c [d] =
        (⟨c.entries ++
          [⟨_create_doc_id md5 c d.url d.timestamp,
            d.title ++ "\n\n" ++ d.content ++ "\n\nSource:" ++ d.source,
            updateMeta d⟩]⟩, 1) := by
      simp [add_documents_fixed, h, hadd]
    rw [h1]
    have hex : _document_exists
        ⟨c.entries ++
          [⟨_create_doc_id md5 c d.url d.timestamp,
            d.title ++ "\n\n" ++ d.content ++ "\n\nSource:" ++ d.source,
            updateMeta d⟩]⟩
        (_create_doc_id md5
          ⟨c.entries ++
            [⟨_create_doc_id md5 c d.url d.timestamp,
              d.title ++ "\n\n" ++ d.content ++ "\n\nSource:" ++ d.source,
              updateMeta d⟩]⟩ d.url d.timestamp) = true := by
      rw [document_exists_iff]
      exact ⟨_, List.mem_append_right _ (List.mem_singleton_self _), rfl⟩
    simp [add_documents_fixed, hex]

end TechRag
